import Mathlib

/-!
Verification development for the Web-Search-AI-Agent repository.

The development shallowly embeds the repository's research agent
(`services/backend/agent.py`) and the search-result parser
(`services/backend/scraper.py`).  The two backing network services (the
chat-completion endpoint of `llm.py` and the BrightData endpoint of
`scraper.py`) are modelled as abstract ports: a completion port mapping the
call index and prompt to either a response string or an `LLMError`, and a
search port mapping the query to either a result list or a `ScraperError`.
Python's `json.loads` is likewise abstracted as a function
`String → Option Json`.  All orchestration logic, string processing of model
responses, fallback policy, and result-record construction are translated
from the source.
-/

/-- JSON values as produced by `json.loads`, doubling as the Python runtime
values that flow through the agent (numbers are modelled as integers; no
claim depends on float payloads). -/
inductive Json where
  | null
  | bool (b : Bool)
  | num (n : Int)
  | str (s : String)
  | arr (xs : List Json)
  | obj (kvs : List (String × Json))
deriving Repr

/-- Python truthiness of a JSON value. -/
def Json.truthy : Json → Bool
  | .null => false
  | .bool b => b
  | .num n => n != 0
  | .str s => s != ""
  | .arr xs => !xs.isEmpty
  | .obj kvs => !kvs.isEmpty

/-- Python `dict.get(k, default)` on a JSON object's key/value list. -/
def dictGet (kvs : List (String × Json)) (k : String) (d : Json) : Json :=
  (List.lookup k kvs).getD d

/-- Python exceptions that can escape the code under study: `IndexError`
from `[1]` on a too-short `split` result, `AttributeError` from `.get` on a
non-dict, `TypeError` from iterating a non-iterable. -/
inductive PyExc where
  | indexError
  | attributeError
  | typeError
deriving Repr, DecidableEq

/-- `LLMError` of `llm.py` (the status code plays no role in the agent). -/
structure LLMErr where
  message : String
deriving Repr, DecidableEq

/-- `ScraperError` of `scraper.py`. -/
structure ScraperErr where
  message : String
deriving Repr, DecidableEq

/-- Python `str.isspace` over the characters `str.strip` removes. -/
def pyIsSpace (c : Char) : Bool :=
  c == ' ' || c == '\t' || c == '\n' || c == '\r' || c == '\x0b' || c == '\x0c'

/-- Python `str.strip()`. -/
def pyStrip (s : String) : String :=
  String.mk (((s.data.dropWhile pyIsSpace).reverse.dropWhile pyIsSpace).reverse)

/-- Python `str.startswith`. -/
def pyStartsWith (pre s : String) : Bool :=
  List.isPrefixOf pre.data s.data

/-- Index of the first occurrence of `sep` in `s` (`str.find`). -/
def firstOccur (sep s : List Char) : Option Nat :=
  ((List.range (s.length + 1)).filter (fun i => List.isPrefixOf sep (s.drop i))).head?

/-- Index of the last occurrence of `sep` in `s` (`str.rfind`). -/
def lastOccur (sep s : List Char) : Option Nat :=
  ((List.range (s.length + 1)).filter (fun i => List.isPrefixOf sep (s.drop i))).getLast?

/-- Python `s.split(sep, 1)` for a non-empty separator. -/
def pySplit1 (sep s : String) : List String :=
  match firstOccur sep.data s.data with
  | none => [s]
  | some i => [String.mk (s.data.take i), String.mk (s.data.drop (i + sep.data.length))]

/-- Python `s.rsplit(sep, 1)` for a non-empty separator. -/
def pyRsplit1 (sep s : String) : List String :=
  match lastOccur sep.data s.data with
  | none => [s]
  | some i => [String.mk (s.data.take i), String.mk (s.data.drop (i + sep.data.length))]

/-- The fenced-code-block stripping shared by `_needs_web_search` and
`_extract_keywords`:
`if response.startswith("```"): response = response.split("\n", 1)[1].rsplit("```", 1)[0]`.
When the response starts with three backticks but contains no newline,
`split` returns a one-element list and the `[1]` raises an uncaught
`IndexError`. -/
def fenceStrip (r : String) : Except PyExc String :=
  if pyStartsWith ("```") r then
    match pySplit1 ("\n") r with
    | [_, rest] => .ok ((pyRsplit1 ("```") rest).headD (""))
    | _ => .error PyExc.indexError
  else .ok r

/-- A search record as the agent consumes it: the dicts produced by
`ScraperClient.search_as_dict`, with the `title`/`url`/`description` keys
(string-valued per the `SearchResult` annotations in `scraper.py`). -/
structure SearchResult where
  title : String
  url : String
  description : String
deriving Repr, DecidableEq

/-- One outbound call made by the agent, for stating which ports a run
invokes and with which payloads. -/
inductive Event where
  | llmCall (prompt : String)
  | searchCall (query : Json) (numResults : Nat)
deriving Repr

/-- The agent's two external dependencies plus `json.loads`, abstracted.
`llm k p` is the completion port's behaviour on the `k`-th completion call
of a run, issued with prompt `p`; `search q n` is the search port
(`search_as_dict`) on query `q` (any Python value the keyword stage may
produce) and result count `n`. -/
structure Ports where
  llm : Nat → String → Except LLMErr String
  search : Json → Nat → Except ScraperErr (List SearchResult)
  jloads : String → Option Json

/-- The fallback reason of `_needs_web_search`. -/
def failedDetermineMsg : String := "Failed to determine, using direct answer"

/-- `DECISION_PROMPT.format(question=question)`. -/
def decisionPrompt (question : String) : String :=
  "You are a helpful assistant that decides whether a question requires current information from the web.\n\nAnalyze the following question and determine if it needs web search to provide an accurate, up-to-date answer.\n\nQuestions that typically NEED web search:\n- Current events, news, or recent developments\n- Real-time data (prices, weather, stock prices)\n- Information that changes frequently\n- Questions about specific recent dates or events\n- Questions about current versions of software, products, etc.\n\nQuestions that typically DON\x27T need web search:\n- General knowledge, concepts, or explanations\n- Historical facts\n- How-to guides for established processes\n- Mathematical or logical problems\n- Definitions or explanations of well-known topics\n\nQuestion: "
    ++ question
    ++ "\n\nRespond with ONLY a JSON object (no markdown, no explanation):\n\x7b\"needs_search\": true/false, \"reason\": \"brief explanation\"\x7d"

/-- `KEYWORD_PROMPT.format(question=question)`. -/
def keywordPrompt (question : String) : String :=
  "Extract the best search keywords from this question to find relevant information on Google.\n\nQuestion: "
    ++ question
    ++ "\n\nRespond with ONLY a JSON object (no markdown, no explanation):\n\x7b\"keywords\": \"optimized search query\"\x7d"

/-- `ANSWER_WITH_SEARCH_PROMPT.format(question=..., search_results=...)`. -/
def answerSearchPrompt (question searchResults : String) : String :=
  "You are a helpful research assistant. Answer the user\x27s question using the search results provided.\n\nQuestion: "
    ++ question
    ++ "\n\nSearch Results:\n"
    ++ searchResults
    ++ "\n\nInstructions:\n- Provide a comprehensive answer based on the search results\n- If the search results don\x27t contain relevant information, say so\n- Cite sources when possible by mentioning the source title\n- Be concise but thorough"

/-- `ANSWER_DIRECT_PROMPT.format(question=question)`. -/
def answerDirectPrompt (question : String) : String :=
  "You are a helpful assistant. Answer the following question based on your knowledge.\n\nQuestion: "
    ++ question
    ++ "\n\nProvide a clear, accurate, and helpful response."

/-- `ResearchAgent._needs_web_search`.  `k` is the index of the completion
call this stage issues.  The stage's `except` clause catches only
`json.JSONDecodeError` (modelled by `jloads` returning `none`) and
`LLMError`; an `IndexError` from the fence stripping or an `AttributeError`
from `.get` on a non-dict JSON value escapes as `.error`. -/
def needsWebSearch (P : Ports) (k : Nat) (question : String) :
    Except PyExc (Json × Json) × Nat × List Event :=
  let pr := decisionPrompt question
  let ev := [Event.llmCall pr]
  match P.llm k pr with
  | .error _ => (.ok (Json.bool false, Json.str failedDetermineMsg), k + 1, ev)
  | .ok response =>
    match fenceStrip (pyStrip response) with
    | .error e => (.error e, k + 1, ev)
    | .ok r2 =>
      match P.jloads r2 with
      | none => (.ok (Json.bool false, Json.str failedDetermineMsg), k + 1, ev)
      | some data =>
        match data with
        | .obj kvs =>
          (.ok (dictGet kvs ("needs_search") (Json.bool false),
                dictGet kvs ("reason") (Json.str (""))), k + 1, ev)
        | _ => (.error PyExc.attributeError, k + 1, ev)

/-- `ResearchAgent._extract_keywords`, with the same exception structure as
the decision stage; the parse-failure and port-failure fallback is the
original question, and `data.get("keywords", question)` likewise defaults
to the question. -/
def extractKeywords (P : Ports) (k : Nat) (question : String) :
    Except PyExc Json × Nat × List Event :=
  let pr := keywordPrompt question
  let ev := [Event.llmCall pr]
  match P.llm k pr with
  | .error _ => (.ok (Json.str question), k + 1, ev)
  | .ok response =>
    match fenceStrip (pyStrip response) with
    | .error e => (.error e, k + 1, ev)
    | .ok r2 =>
      match P.jloads r2 with
      | none => (.ok (Json.str question), k + 1, ev)
      | some data =>
        match data with
        | .obj kvs => (.ok (dictGet kvs ("keywords") (Json.str question)), k + 1, ev)
        | _ => (.error PyExc.attributeError, k + 1, ev)

/-- `ResearchAgent._search_web`: absorbs a `ScraperError` into `[]`. -/
def searchWeb (P : Ports) (keywords : Json) (numResults : Nat) :
    List SearchResult × List Event :=
  match P.search keywords numResults with
  | .ok rs => (rs, [Event.searchCall keywords numResults])
  | .error _ => ([], [Event.searchCall keywords numResults])

/-- `enumerate(search_results, 1)`. -/
def enumFrom {A : Type} : Nat → List A → List (Nat × A)
  | _, [] => []
  | n, x :: xs => (n, x) :: enumFrom (n + 1) xs

/-- The three `formatted_results +=` lines of `_answer_with_results` for one
result at 1-based index `i`. -/
def resultBlock (i : Nat) (r : SearchResult) : String :=
  "\n" ++ toString i ++ ". " ++ r.title ++ "\n"
    ++ "   URL: " ++ r.url ++ "\n"
    ++ "   " ++ r.description ++ "\n"

/-- The `formatted_results` accumulation loop of `_answer_with_results`. -/
def formatResults (rs : List SearchResult) : String :=
  (enumFrom 1 rs).foldl (fun acc p => acc ++ resultBlock p.1 p.2) ("")

/-- `ResearchAgent._answer_with_results`: formats the results, issues one
completion call, and propagates its `LLMError`. -/
def answerWithResults (P : Ports) (k : Nat) (question : String) (rs : List SearchResult) :
    Except LLMErr String × Nat × List Event :=
  let pr := answerSearchPrompt question (formatResults rs)
  (P.llm k pr, k + 1, [Event.llmCall pr])

/-- `ResearchAgent._answer_direct`: one completion call, `LLMError`
propagated. -/
def answerDirect (P : Ports) (k : Nat) (question : String) :
    Except LLMErr String × Nat × List Event :=
  let pr := answerDirectPrompt question
  (P.llm k pr, k + 1, [Event.llmCall pr])

/-- The result dict built by `ResearchAgent.answer`. -/
structure AnswerResult where
  question : String
  answer : String
  used_search : Bool
  search_results : List SearchResult
  reason : Json
deriving Repr

/-- The answer string the top-level `except LLMError` handler stores:
`f"Sorry, I encountered an error: {e.message}"`. -/
def errAnswer (e : LLMErr) : String :=
  "Sorry, I encountered an error: " ++ e.message

/-- `ResearchAgent.answer(question, use_web_search)`.  The top-level
`try/except LLMError` can only be triggered by the two synthesis stages
(the earlier stages absorb their own `LLMError`s), so it is applied at the
two synthesis call sites; an uncaught Python exception from the decision or
keyword stage escapes as `.error`.  The second component is the trace of
outbound port calls the run performs. -/
def answer (P : Ports) (question : String) (useWebSearch : Bool) :
    Except PyExc AnswerResult × List Event :=
  let r0 : AnswerResult :=
    { question := question, answer := "", used_search := false
      search_results := [], reason := Json.str ("") }
  if useWebSearch = false then
    let r1 := { r0 with reason := Json.str ("Web search disabled") }
    match answerDirect P 0 question with
    | (.ok a, _, ev) => (.ok { r1 with answer := a }, ev)
    | (.error e, _, ev) => (.ok { r1 with answer := errAnswer e }, ev)
  else
    match needsWebSearch P 0 question with
    | (.error exc, _, ev1) => (.error exc, ev1)
    | (.ok (ns, reason), k1, ev1) =>
      let r1 := { r0 with reason := reason }
      if ns.truthy then
        match extractKeywords P k1 question with
        | (.error exc, _, ev2) => (.error exc, ev1 ++ ev2)
        | (.ok kw, k2, ev2) =>
          let sw := searchWeb P kw 5
          let rs := sw.1
          let ev3 := sw.2
          let r2 := { r1 with search_results := rs, used_search := true }
          if rs.isEmpty then
            match answerDirect P k2 question with
            | (.ok a, _, ev4) => (.ok { r2 with answer := a }, ev1 ++ ev2 ++ ev3 ++ ev4)
            | (.error e, _, ev4) =>
              (.ok { r2 with answer := errAnswer e }, ev1 ++ ev2 ++ ev3 ++ ev4)
          else
            match answerWithResults P k2 question rs with
            | (.ok a, _, ev4) => (.ok { r2 with answer := a }, ev1 ++ ev2 ++ ev3 ++ ev4)
            | (.error e, _, ev4) =>
              (.ok { r2 with answer := errAnswer e }, ev1 ++ ev2 ++ ev3 ++ ev4)
      else
        match answerDirect P k1 question with
        | (.ok a, _, ev4) => (.ok { r1 with answer := a }, ev1 ++ ev4)
        | (.error e, _, ev4) => (.ok { r1 with answer := errAnswer e }, ev1 ++ ev4)

namespace Scraper

/-- `scraper.SearchResult`.  At runtime the fields hold whatever JSON values
the provider payload supplies, so they are modelled as `Json`. -/
structure SearchResult where
  title : Json
  url : Json
  description : Json
deriving Repr

/-- The `for item in organic` loop body of
`ScraperClient._parse_search_results`.  A non-dict item makes `.get` raise
an uncaught `AttributeError`. -/
def itemsLoop : List Json → Except PyExc (List SearchResult)
  | [] => .ok []
  | item :: rest =>
    match item with
    | .obj kvs =>
      let title := dictGet kvs ("title") (Json.str (""))
      let url :=
        (let l := dictGet kvs ("link") Json.null
         if l.truthy then l else dictGet kvs ("url") (Json.str ("")))
      let description :=
        (let d := dictGet kvs ("description") Json.null
         if d.truthy then d else dictGet kvs ("snippet") (Json.str ("")))
      match itemsLoop rest with
      | .ok tail =>
        .ok (if title.truthy && url.truthy then ⟨title, url, description⟩ :: tail else tail)
      | .error e => .error e
    | _ => .error PyExc.attributeError

/-- The part of `_parse_search_results` after the body has been resolved:
`organic = body.get("organic") or body.get("organic_results") or []`
followed by the item loop.  `body.get` on a non-dict raises
`AttributeError`; a `for` loop over a truthy non-list `organic` either
iterates strings (string or dict: `item.get` raises `AttributeError`) or is
a `TypeError` (number, boolean). -/
def parseBody (b : Json) : Except PyExc (List SearchResult) :=
  match b with
  | .obj kvs =>
    let a := dictGet kvs ("organic") Json.null
    let organic :=
      if a.truthy then a
      else
        (let b2 := dictGet kvs ("organic_results") Json.null
         if b2.truthy then b2 else Json.arr [])
    match organic with
    | .arr items => itemsLoop items
    | .str _ => .error PyExc.attributeError
    | .obj _ => .error PyExc.attributeError
    | _ => .error PyExc.typeError
  | _ => .error PyExc.attributeError

/-- `ScraperClient._parse_search_results`.  `data` is the decoded response;
`body = data.get("body", data)`, a string body gets a second `json.loads`
pass whose failure yields `[]`. -/
def parseSearchResults (jloads : String → Option Json) (data : Json) :
    Except PyExc (List SearchResult) :=
  match data with
  | .obj kvs =>
    let body := dictGet kvs ("body") data
    match body with
    | .str s =>
      match jloads s with
      | none => .ok []
      | some b => parseBody b
    | _ => parseBody body
  | _ => .error PyExc.attributeError

/-- An organic-list entry with string-valued optional fields, the record
shape the spec's search-provider contract describes. -/
structure OrganicItem where
  title : Option String
  link : Option String
  url : Option String
  description : Option String
  snippet : Option String
deriving Repr

/-- Key/value list of an `OrganicItem` as the provider JSON would carry it
(absent fields simply missing from the object). -/
def OrganicItem.fields (it : OrganicItem) : List (String × Json) :=
  (match it.title with | some v => [(("title" : String), Json.str v)] | none => [])
    ++ (match it.link with | some v => [(("link" : String), Json.str v)] | none => [])
    ++ (match it.url with | some v => [(("url" : String), Json.str v)] | none => [])
    ++ (match it.description with | some v => [(("description" : String), Json.str v)] | none => [])
    ++ (match it.snippet with | some v => [(("snippet" : String), Json.str v)] | none => [])

/-- The `OrganicItem` as a JSON object. -/
def OrganicItem.toJson (it : OrganicItem) : Json :=
  Json.obj it.fields

/-- Modelled from the spec for comparison against the source parser: a
record is kept exactly when its title and its URL (the `link` field, or the
`url` field when `link` is missing or empty) are both non-empty, with the
description taken from `description` or `snippet`. -/
def OrganicItem.extract (it : OrganicItem) : Option SearchResult :=
  let t := it.title.getD ("")
  let l := it.link.getD ("")
  let u := if l != "" then l else it.url.getD ("")
  let ds := it.description.getD ("")
  let d := if ds != "" then ds else it.snippet.getD ("")
  if t != "" && u != "" then some ⟨Json.str t, Json.str u, Json.str d⟩ else none

end Scraper

/-- The chunks `cs` occur, contiguously and in order, inside the character
sequence `s` (with arbitrary gaps between consecutive chunks). -/
def appearInOrder : List (List Char) → List Char → Prop
  | [], _ => True
  | c :: cs, s => ∃ p r, s = p ++ c ++ r ∧ appearInOrder cs r

/-- Deterministic port bundle for concrete runs: `resps` lists the
completion responses by call index, the search port constantly returns
`sr`, and `jl` decodes response strings. -/
def mkPorts (resps : List (Except LLMErr String))
    (sr : Except ScraperErr (List SearchResult))
    (jl : String → Option Json) : Ports where
  llm := fun k _ => resps.getD k (Except.ok (""))
  search := fun _ _ => sr
  jloads := jl

/-- A `json.loads` model given by a finite table. -/
def jlOf (m : List (String × Json)) : String → Option Json :=
  fun s => List.lookup s m

/-- A decision-stage response value meaning `needs_search = true`. -/
def decTrueJson : Json :=
  Json.obj [(("needs_search" : String), Json.bool true),
            (("reason" : String), Json.str ("needs current data"))]

/-- Port bundle whose decision response is the malformed fenced block
made of three backticks and nothing else. -/
def PC1 : Ports := mkPorts [Except.ok ("```")] (Except.ok []) (jlOf [])

/-- Port bundle whose decision succeeds with `needs_search = true` and
whose keyword-stage response is the bare three-backtick string. -/
def PC8 : Ports :=
  mkPorts [Except.ok ("DECIDE_TRUE"), Except.ok ("```")] (Except.ok [])
    (jlOf [(("DECIDE_TRUE" : String), decTrueJson)])

/-- Port bundle whose decision response decodes to a JSON object with
`needs_search = false` and no `reason` field. -/
def PC9 : Ports :=
  mkPorts [Except.ok ("DECIDE_FALSE_NOREASON"), Except.ok ("direct answer")] (Except.ok [])
    (jlOf [(("DECIDE_FALSE_NOREASON" : String),
            Json.obj [(("needs_search" : String), Json.bool false)])])

/-- Port bundle whose keyword-stage response decodes to a JSON object
without a `keywords` field. -/
def PC10 : Ports :=
  mkPorts [Except.ok ("KW_NOKEY")] (Except.ok [])
    (jlOf [(("KW_NOKEY" : String), Json.obj [(("foo" : String), Json.str ("bar"))])])

/-- The completion failure used in concrete runs. -/
def EW : LLMErr := { message := "boom" }

/-- A concrete search record used in concrete runs. -/
def RW : SearchResult := { title := "T", url := "U", description := "D" }

/-- Port bundle failing at the very first completion call. -/
def PW2a : Ports := mkPorts [Except.error EW] (Except.ok []) (jlOf [])

/-- Port bundle: decision says search, keyword response unparseable (falls
back to the question), search yields one record, synthesis call fails. -/
def PW2b : Ports :=
  mkPorts [Except.ok ("DECIDE_TRUE"), Except.ok ("KWX"), Except.error EW]
    (Except.ok [RW]) (jlOf [(("DECIDE_TRUE" : String), decTrueJson)])

/-- Port bundle answering directly with a fixed string. -/
def PW4 : Ports := mkPorts [Except.ok ("the direct answer")] (Except.ok []) (jlOf [])

/-- Port bundle: decision says search, search succeeds with zero results,
then the direct synthesis succeeds. -/
def PW5 : Ports :=
  mkPorts [Except.ok ("DECIDE_TRUE"), Except.ok ("KW5"), Except.ok ("the direct answer")]
    (Except.ok []) (jlOf [(("DECIDE_TRUE" : String), decTrueJson)])

/-- Port bundle for a fully successful search-augmented run. -/
def PW3 : Ports :=
  mkPorts [Except.ok ("DECIDE_TRUE"), Except.ok ("KW3"), Except.ok ("final answer")]
    (Except.ok [RW]) (jlOf [(("DECIDE_TRUE" : String), decTrueJson)])

/-- The result `PW3` yields on question `q3`. -/
def RES3 : AnswerResult :=
  { question := "q3", answer := "final answer", used_search := true,
    search_results := [RW], reason := Json.str ("needs current data") }

/-- The result `PC9` yields on question `q9`. -/
def RES9 : AnswerResult :=
  { question := "q9", answer := "direct answer", used_search := false,
    search_results := [], reason := Json.str ("") }

lemma searchWeb_events (P : Ports) (kw : Json) (n : Nat) :
    (searchWeb P kw n).2 = [Event.searchCall kw n] := by
  unfold searchWeb
  split <;> rfl

lemma searchWeb_error_empty (P : Ports) (kw : Json) (n : Nat) (err : ScraperErr)
    (h : P.search kw n = Except.error err) : (searchWeb P kw n).1 = [] := by
  unfold searchWeb
  rw [h]

lemma needsWebSearch_events (P : Ports) (k : Nat) (q : String) :
    (needsWebSearch P k q).2.2 = [Event.llmCall (decisionPrompt q)] := by
  unfold needsWebSearch
  dsimp only
  split
  · rfl
  · split
    · rfl
    · split
      · rfl
      · split <;> rfl

lemma extractKeywords_events (P : Ports) (k : Nat) (q : String) :
    (extractKeywords P k q).2.2 = [Event.llmCall (keywordPrompt q)] := by
  unfold extractKeywords
  dsimp only
  split
  · rfl
  · split
    · rfl
    · split
      · rfl
      · split <;> rfl

lemma errAnswer_ne_empty (e : LLMErr) : errAnswer e ≠ "" := by
  intro h
  have h2 : (errAnswer e).data = [] := by rw [h]
  rw [errAnswer, String.data_append] at h2
  have h3 : ("Sorry, I encountered an error: " : String).data
      = 'S' :: ("orry, I encountered an error: " : String).data := rfl
  rw [h3] at h2
  simp at h2

/-- C1: the claim says the decision stage never propagates any error and
falls back to `(false, "Failed to determine, using direct answer")` on
every non-JSON response, including a malformed fenced code block.  The
code violates this: a completion response consisting of three backticks
with no newline makes `response.split("\n", 1)[1]` raise an uncaught
`IndexError`, which escapes `_needs_web_search` and `answer` (whose
handler only catches `LLMError`). -/
theorem C1_decision_malformed_fence_crashes :
    (needsWebSearch PC1 0 ("What is the weather today?")).1 = Except.error PyExc.indexError
  ∧ (answer PC1 ("What is the weather today?") true).1 = Except.error PyExc.indexError := by
  exact ⟨rfl, rfl⟩

/-- C8: the claim says a keyword-extraction failure (completion failure or
response that does not parse as JSON) always degrades to using the
original question as the search query and is never propagated.  The code
violates this: a keyword response of three backticks with no newline
raises an uncaught `IndexError`, the search port is never invoked, and the
exception escapes `answer`. -/
theorem C8_keyword_malformed_fence_crashes :
    (extractKeywords PC8 1 ("q8")).1 = Except.error PyExc.indexError
  ∧ (answer PC8 ("q8") true).1 = Except.error PyExc.indexError
  ∧ (answer PC8 ("q8") true).2
      = [Event.llmCall (decisionPrompt ("q8")), Event.llmCall (keywordPrompt ("q8"))] := by
  exact ⟨rfl, rfl, rfl⟩

/-- C9 counterexample: a successful run (no error anywhere, an answer is
produced) whose returned `reason` is the empty string, because the decision
response was the well-formed object with only a `needs_search` field and
`data.get("reason", "")` silently defaulted. -/
theorem C9_counterexample_empty_reason :
    (answer PC9 ("q9") true).1
      = Except.ok { question := ("q9"), answer := ("direct answer"), used_search := false,
                    search_results := [], reason := Json.str ("") } := by
  exact rfl

/-- C10: a keyword-stage completion response that decodes to a JSON object
with no `keywords` field makes `_extract_keywords` return the original
question, exactly as on parse failure. -/
theorem C10_keywords_field_missing_falls_back (P : Ports) (k : Nat) (q r r2 : String)
    (kvs : List (String × Json))
    (h1 : P.llm k (keywordPrompt q) = Except.ok r)
    (h2 : fenceStrip (pyStrip r) = Except.ok r2)
    (h3 : P.jloads r2 = some (Json.obj kvs))
    (h4 : List.lookup ("keywords") kvs = none) :
    extractKeywords P k q = (Except.ok (Json.str q), k + 1, [Event.llmCall (keywordPrompt q)]) := by
  simp [extractKeywords, h1, h2, h3, dictGet, h4]

theorem C10_witness :
    PC10.llm 0 (keywordPrompt ("why")) = Except.ok ("KW_NOKEY")
  ∧ fenceStrip (pyStrip ("KW_NOKEY")) = Except.ok ("KW_NOKEY")
  ∧ PC10.jloads ("KW_NOKEY") = some (Json.obj [(("foo" : String), Json.str ("bar"))])
  ∧ List.lookup ("keywords") [(("foo" : String), Json.str ("bar"))] = none
  ∧ extractKeywords PC10 0 ("why")
      = (Except.ok (Json.str ("why")), 1, [Event.llmCall (keywordPrompt ("why"))]) :=
  ⟨rfl, rfl, rfl, rfl,
    C10_keywords_field_missing_falls_back PC10 0 ("why") ("KW_NOKEY") ("KW_NOKEY")
      [(("foo" : String), Json.str ("bar"))] rfl rfl rfl rfl⟩

/-- C2: a completion-port failure in either synthesis stage (direct or
search-augmented, on any of the three routes that reach a synthesis call)
is converted into the structured result: `answer` is the error-prefixed
message built from the failure's message (never empty), and `question`,
`used_search`, `search_results` and `reason` hold exactly the values they
held before the failing call. -/
theorem C2_synthesis_failure_keeps_structure (P : Ports) (q : String) (e : LLMErr) :
    errAnswer e ≠ ""
  ∧ (P.llm 0 (answerDirectPrompt q) = Except.error e →
      (answer P q false).1
        = Except.ok { question := q, answer := errAnswer e, used_search := false,
                      search_results := [], reason := Json.str ("Web search disabled") })
  ∧ (∀ ns reason k1 ev1,
      needsWebSearch P 0 q = (Except.ok (ns, reason), k1, ev1) → ns.truthy = false →
      P.llm k1 (answerDirectPrompt q) = Except.error e →
      (answer P q true).1
        = Except.ok { question := q, answer := errAnswer e, used_search := false,
                      search_results := [], reason := reason })
  ∧ (∀ ns reason k1 ev1 kw k2 ev2,
      needsWebSearch P 0 q = (Except.ok (ns, reason), k1, ev1) → ns.truthy = true →
      extractKeywords P k1 q = (Except.ok kw, k2, ev2) →
      (searchWeb P kw 5).1 = [] →
      P.llm k2 (answerDirectPrompt q) = Except.error e →
      (answer P q true).1
        = Except.ok { question := q, answer := errAnswer e, used_search := true,
                      search_results := [], reason := reason })
  ∧ (∀ ns reason k1 ev1 kw k2 ev2 rs,
      needsWebSearch P 0 q = (Except.ok (ns, reason), k1, ev1) → ns.truthy = true →
      extractKeywords P k1 q = (Except.ok kw, k2, ev2) →
      (searchWeb P kw 5).1 = rs → rs ≠ [] →
      P.llm k2 (answerSearchPrompt q (formatResults rs)) = Except.error e →
      (answer P q true).1
        = Except.ok { question := q, answer := errAnswer e, used_search := true,
                      search_results := rs, reason := reason }) := by
  refine ⟨errAnswer_ne_empty e, ?_, ?_, ?_, ?_⟩
  · intro hll
    simp [answer, answerDirect, hll]
  · intro ns reason k1 ev1 hdec hns hll
    simp [answer, answerDirect, hdec, hns, hll]
  · intro ns reason k1 ev1 kw k2 ev2 hdec hns hkw hempty hll
    simp [answer, answerDirect, hdec, hns, hkw, hempty, hll]
  · intro ns reason k1 ev1 kw k2 ev2 rs hdec hns hkw hsw hne hll
    rcases rs with _ | ⟨r, rs2⟩
    · exact absurd rfl hne
    · simp [answer, answerWithResults, hdec, hns, hkw, hsw, hll]

theorem C2_witness :
    (PW2a.llm 0 (answerDirectPrompt ("q2")) = Except.error EW
      ∧ (answer PW2a ("q2") false).1
          = Except.ok { question := ("q2"), answer := errAnswer EW, used_search := false,
                        search_results := [], reason := Json.str ("Web search disabled") })
  ∧ (needsWebSearch PW2b 0 ("q2")
        = (Except.ok (Json.bool true, Json.str ("needs current data")), 1,
           [Event.llmCall (decisionPrompt ("q2"))])
      ∧ (Json.bool true).truthy = true
      ∧ extractKeywords PW2b 1 ("q2")
          = (Except.ok (Json.str ("q2")), 2, [Event.llmCall (keywordPrompt ("q2"))])
      ∧ (searchWeb PW2b (Json.str ("q2")) 5).1 = [RW]
      ∧ ([RW] : List SearchResult) ≠ []
      ∧ PW2b.llm 2 (answerSearchPrompt ("q2") (formatResults [RW])) = Except.error EW
      ∧ (answer PW2b ("q2") true).1
          = Except.ok { question := ("q2"), answer := errAnswer EW, used_search := true,
                        search_results := [RW], reason := Json.str ("needs current data") }) :=
  ⟨⟨rfl, (C2_synthesis_failure_keeps_structure PW2a ("q2") EW).2.1 rfl⟩,
   ⟨rfl, rfl, rfl, rfl, by decide, rfl,
    (C2_synthesis_failure_keeps_structure PW2b ("q2") EW).2.2.2.2
      (Json.bool true) (Json.str ("needs current data")) 1 [Event.llmCall (decisionPrompt ("q2"))]
      (Json.str ("q2")) 2 [Event.llmCall (keywordPrompt ("q2"))] [RW]
      rfl rfl rfl rfl (by decide) rfl⟩⟩

/-- C4: with search disabled, the run makes exactly one outbound call — the
direct-synthesis completion — so the search port, the decision stage and
the keyword stage are never invoked; the result has `used_search = false`,
`search_results = []`, `reason = "Web search disabled"`, and the answer is
whatever the direct-synthesis call produced. -/
theorem C4_search_disabled_direct_only (P : Ports) (q : String) (h : q ≠ "") :
    (answer P q false).2 = [Event.llmCall (answerDirectPrompt q)]
  ∧ ∃ res, (answer P q false).1 = Except.ok res
      ∧ res.question = q
      ∧ res.used_search = false
      ∧ res.search_results = []
      ∧ res.reason = Json.str ("Web search disabled")
      ∧ res.answer = (match P.llm 0 (answerDirectPrompt q) with
                      | Except.ok a => a
                      | Except.error e => errAnswer e) := by
  rcases hll : P.llm 0 (answerDirectPrompt q) with e | a
  · refine ⟨by simp [answer, answerDirect, hll],
      { question := q, answer := errAnswer e, used_search := false,
        search_results := [], reason := Json.str ("Web search disabled") },
      by simp [answer, answerDirect, hll], rfl, rfl, rfl, rfl, by simp [hll]⟩
  · refine ⟨by simp [answer, answerDirect, hll],
      { question := q, answer := a, used_search := false,
        search_results := [], reason := Json.str ("Web search disabled") },
      by simp [answer, answerDirect, hll], rfl, rfl, rfl, rfl, by simp [hll]⟩

theorem C4_witness :
    (("q4" : String) ≠ "")
  ∧ ((answer PW4 ("q4") false).2 = [Event.llmCall (answerDirectPrompt ("q4"))]
      ∧ ∃ res, (answer PW4 ("q4") false).1 = Except.ok res
          ∧ res.question = ("q4")
          ∧ res.used_search = false
          ∧ res.search_results = []
          ∧ res.reason = Json.str ("Web search disabled")
          ∧ res.answer = (match PW4.llm 0 (answerDirectPrompt ("q4")) with
                          | Except.ok a => a
                          | Except.error e => errAnswer e)) :=
  ⟨by decide, C4_search_disabled_direct_only PW4 ("q4") (by decide)⟩

/-- C5: after a `needs_search = true` decision, when the search stage
yields zero results — in particular a search-port failure is absorbed into
the empty list — the result still has `used_search = true` and
`search_results = []`, and the answer comes from the direct-synthesis
stage (the trace ends with the direct prompt, not the search-augmented
one). -/
theorem C5_empty_results_direct_fallback (P : Ports) (q : String) (ns reason : Json)
    (k1 : Nat) (ev1 : List Event) (kw : Json) (k2 : Nat) (ev2 : List Event)
    (hdec : needsWebSearch P 0 q = (Except.ok (ns, reason), k1, ev1))
    (hns : ns.truthy = true)
    (hkw : extractKeywords P k1 q = (Except.ok kw, k2, ev2))
    (hempty : (searchWeb P kw 5).1 = []) :
    (∀ kq n err, P.search kq n = Except.error err → (searchWeb P kq n).1 = [])
  ∧ (answer P q true).2
      = ev1 ++ ev2 ++ [Event.searchCall kw 5] ++ [Event.llmCall (answerDirectPrompt q)]
  ∧ ∃ res, (answer P q true).1 = Except.ok res
      ∧ res.used_search = true
      ∧ res.search_results = []
      ∧ res.reason = reason
      ∧ res.answer = (match P.llm k2 (answerDirectPrompt q) with
                      | Except.ok a => a
                      | Except.error e => errAnswer e) := by
  refine ⟨fun kq n err h => searchWeb_error_empty P kq n err h, ?_, ?_⟩
  · rcases hll : P.llm k2 (answerDirectPrompt q) with e | a <;>
      simp [answer, answerDirect, hdec, hns, hkw, hempty, hll, searchWeb_events]
  · rcases hll : P.llm k2 (answerDirectPrompt q) with e | a
    · refine ⟨{ question := q, answer := errAnswer e, used_search := true,
                search_results := [], reason := reason },
        by simp [answer, answerDirect, hdec, hns, hkw, hempty, hll],
        rfl, rfl, rfl, by simp [hll]⟩
    · refine ⟨{ question := q, answer := a, used_search := true,
                search_results := [], reason := reason },
        by simp [answer, answerDirect, hdec, hns, hkw, hempty, hll],
        rfl, rfl, rfl, by simp [hll]⟩

theorem C5_witness :
    (needsWebSearch PW5 0 ("q5")
        = (Except.ok (Json.bool true, Json.str ("needs current data")), 1,
           [Event.llmCall (decisionPrompt ("q5"))])
      ∧ (Json.bool true).truthy = true
      ∧ extractKeywords PW5 1 ("q5")
          = (Except.ok (Json.str ("q5")), 2, [Event.llmCall (keywordPrompt ("q5"))])
      ∧ (searchWeb PW5 (Json.str ("q5")) 5).1 = [])
  ∧ ((∀ kq n err, PW5.search kq n = Except.error err → (searchWeb PW5 kq n).1 = [])
      ∧ (answer PW5 ("q5") true).2
          = [Event.llmCall (decisionPrompt ("q5"))] ++ [Event.llmCall (keywordPrompt ("q5"))]
              ++ [Event.searchCall (Json.str ("q5")) 5]
              ++ [Event.llmCall (answerDirectPrompt ("q5"))]
      ∧ ∃ res, (answer PW5 ("q5") true).1 = Except.ok res
          ∧ res.used_search = true
          ∧ res.search_results = []
          ∧ res.reason = Json.str ("needs current data")
          ∧ res.answer = (match PW5.llm 2 (answerDirectPrompt ("q5")) with
                          | Except.ok a => a
                          | Except.error e => errAnswer e)) :=
  ⟨⟨rfl, rfl, rfl, rfl⟩,
   C5_empty_results_direct_fallback PW5 ("q5") (Json.bool true)
     (Json.str ("needs current data")) 1 [Event.llmCall (decisionPrompt ("q5"))]
     (Json.str ("q5")) 2 [Event.llmCall (keywordPrompt ("q5"))] rfl rfl rfl rfl⟩

/-- C3: in every structured result `answer` returns, `search_results` is
non-empty only if `used_search` is true; `used_search` is true exactly when
the run actually invoked the search port; and `used_search` is never true
when the caller disabled search. -/
theorem C3_used_search_invariant (P : Ports) (q : String) (b : Bool) (res : AnswerResult)
    (h : (answer P q b).1 = Except.ok res) :
    (res.search_results ≠ [] → res.used_search = true)
  ∧ (res.used_search = true ↔ ∃ kw n, Event.searchCall kw n ∈ (answer P q b).2)
  ∧ (b = false → res.used_search = false) := by
  cases b with
  | false =>
    rcases hll : P.llm 0 (answerDirectPrompt q) with e | a <;>
      (simp [answer, answerDirect, hll] at h ⊢; subst h; simp)
  | true =>
    rcases hd : needsWebSearch P 0 q with ⟨od, kd, evd⟩
    have hev1 : evd = [Event.llmCall (decisionPrompt q)] := by
      have h2 := needsWebSearch_events P 0 q
      rw [hd] at h2
      exact h2
    rcases od with exc | nsr
    · simp [answer, hd] at h
    · obtain ⟨ns, reason⟩ := nsr
      by_cases hns : ns.truthy = true
      · rcases hk : extractKeywords P kd q with ⟨ok2, k2, ev2⟩
        have hev2 : ev2 = [Event.llmCall (keywordPrompt q)] := by
          have h2 := extractKeywords_events P kd q
          rw [hk] at h2
          exact h2
        rcases ok2 with exc | kw
        · simp [answer, hd, hns, hk] at h
        · rcases hw : searchWeb P kw 5 with ⟨rs, ev3⟩
          have hev3 : ev3 = [Event.searchCall kw 5] := by
            have h2 := searchWeb_events P kw 5
            rw [hw] at h2
            exact h2
          rcases rs with _ | ⟨r, rs2⟩
          · rcases hll : P.llm k2 (answerDirectPrompt q) with e | a <;>
              (simp [answer, answerDirect, hd, hns, hk, hw, hll] at h ⊢; subst h;
               simp [hev3]
               exact ⟨kw, 5, by simp⟩)
          · rcases hll : P.llm k2 (answerSearchPrompt q (formatResults (r :: rs2))) with e | a <;>
              (simp [answer, answerWithResults, hd, hns, hk, hw, hll] at h ⊢; subst h;
               simp [hev3]
               exact ⟨kw, 5, by simp⟩)
      · rcases hll : P.llm kd (answerDirectPrompt q) with e | a <;>
          (simp [answer, answerDirect, hd, hns, hll] at h ⊢; subst h; simp [hev1])

theorem C3_witness :
    (answer PW3 ("q3") true).1 = Except.ok RES3
  ∧ ((RES3.search_results ≠ [] → RES3.used_search = true)
     ∧ (RES3.used_search = true ↔ ∃ kw n, Event.searchCall kw n ∈ (answer PW3 ("q3") true).2)
     ∧ (true = false → RES3.used_search = false)) :=
  ⟨rfl, C3_used_search_invariant PW3 ("q3") true RES3 rfl⟩

/-- C9 amended: in every structured result `answer` returns, the `reason`
field is either `"Web search disabled"` (when the caller disabled search)
or exactly the value the decision stage produced — its parsed `reason`
value, which defaults to the empty string when the model's JSON omits the
field, or the non-empty fallback text `"Failed to determine, using direct
answer"`.  The original claim's guarantee that `reason` is a non-empty
string in every returned result fails (see the counterexample). -/
theorem C9_reason_provenance (P : Ports) (q : String) (b : Bool) (res : AnswerResult)
    (h : (answer P q b).1 = Except.ok res) :
    (b = false ∧ res.reason = Json.str ("Web search disabled"))
  ∨ ∃ ns k1 ev1, needsWebSearch P 0 q = (Except.ok (ns, res.reason), k1, ev1) := by
  cases b with
  | false =>
    rcases hll : P.llm 0 (answerDirectPrompt q) with e | a <;>
      (simp [answer, answerDirect, hll] at h; subst h; exact Or.inl ⟨rfl, rfl⟩)
  | true =>
    rcases hd : needsWebSearch P 0 q with ⟨od, kd, evd⟩
    rcases od with exc | nsr
    · simp [answer, hd] at h
    · obtain ⟨ns, reason⟩ := nsr
      by_cases hns : ns.truthy = true
      · rcases hk : extractKeywords P kd q with ⟨ok2, k2, ev2⟩
        rcases ok2 with exc | kw
        · simp [answer, hd, hns, hk] at h
        · rcases hw : searchWeb P kw 5 with ⟨rs, ev3⟩
          rcases rs with _ | ⟨r, rs2⟩
          · rcases hll : P.llm k2 (answerDirectPrompt q) with e | a <;>
              (simp [answer, answerDirect, hd, hns, hk, hw, hll] at h; subst h;
               exact Or.inr ⟨ns, kd, evd, rfl⟩)
          · rcases hll : P.llm k2 (answerSearchPrompt q (formatResults (r :: rs2))) with e | a <;>
              (simp [answer, answerWithResults, hd, hns, hk, hw, hll] at h; subst h;
               exact Or.inr ⟨ns, kd, evd, rfl⟩)
      · rcases hll : P.llm kd (answerDirectPrompt q) with e | a <;>
          (simp [answer, answerDirect, hd, hns, hll] at h; subst h;
           exact Or.inr ⟨ns, kd, evd, rfl⟩)

theorem C9_reason_provenance_witness :
    (answer PC9 ("q9") true).1 = Except.ok RES9
  ∧ ((true = false ∧ RES9.reason = Json.str ("Web search disabled"))
     ∨ ∃ ns k1 ev1, needsWebSearch PC9 0 ("q9") = (Except.ok (ns, RES9.reason), k1, ev1)) :=
  ⟨rfl, C9_reason_provenance PC9 ("q9") true RES9 rfl⟩

lemma appearInOrder_of_eq (cs : List (List Char)) (p s t : List Char)
    (hs : t = p ++ s) (h : appearInOrder cs s) : appearInOrder cs t := by
  cases cs with
  | nil => trivial
  | cons c cs =>
    obtain ⟨p2, r, hr, h2⟩ := h
    exact ⟨p ++ p2, r, by rw [hs, hr]; simp [List.append_assoc], h2⟩

lemma appearInOrder_flatten (cs : List (List Char)) (t : List Char) :
    appearInOrder cs (cs.flatten ++ t) := by
  induction cs generalizing t with
  | nil => trivial
  | cons c cs ih => exact ⟨[], cs.flatten ++ t, by simp, ih t⟩

lemma appearInOrder_nest3 (cs : List (List Char)) (a b c t : List Char) :
    appearInOrder cs (a ++ (b ++ (c ++ (cs.flatten ++ t)))) :=
  appearInOrder_of_eq cs (a ++ b ++ c) (cs.flatten ++ t) _
    (by simp [List.append_assoc]) (appearInOrder_flatten cs t)

lemma enumFrom_foldl_data (rs : List SearchResult) : ∀ (n : Nat) (acc : String),
    ((enumFrom n rs).foldl (fun a p => a ++ resultBlock p.1 p.2) acc).data
      = acc.data ++ ((enumFrom n rs).map (fun p => (resultBlock p.1 p.2).data)).flatten := by
  induction rs with
  | nil => intro n acc; simp [enumFrom]
  | cons r rs ih => intro n acc; simp [enumFrom, ih, String.data_append, List.append_assoc]

lemma formatResults_data (rs : List SearchResult) :
    (formatResults rs).data
      = ((enumFrom 1 rs).map (fun p => (resultBlock p.1 p.2).data)).flatten := by
  have h := enumFrom_foldl_data rs 1 ("")
  rw [formatResults, h]
  rfl

/-- C7: for a non-empty result list, the prompt handed to the
search-augmented synthesis stage contains, in the original input order,
the complete 1-indexed numbered block of every result — the block carrying
its title, its URL and its description. -/
theorem C7_prompt_lists_results_in_order (q : String) (rs : List SearchResult) (h : rs ≠ []) :
    appearInOrder ((enumFrom 1 rs).map (fun p => (resultBlock p.1 p.2).data))
      (answerSearchPrompt q (formatResults rs)).data := by
  have hd : (answerSearchPrompt q (formatResults rs)).data
      = ("You are a helpful research assistant. Answer the user\x27s question using the search results provided.\n\nQuestion: " : String).data
        ++ (q.data
        ++ (("\n\nSearch Results:\n" : String).data
        ++ (((enumFrom 1 rs).map (fun p => (resultBlock p.1 p.2).data)).flatten
        ++ ("\n\nInstructions:\n- Provide a comprehensive answer based on the search results\n- If the search results don\x27t contain relevant information, say so\n- Cite sources when possible by mentioning the source title\n- Be concise but thorough" : String).data))) := by
    simp [answerSearchPrompt, String.data_append, formatResults_data, List.append_assoc]
  rw [hd]
  exact appearInOrder_nest3 _ _ _ _ _

theorem C7_witness :
    (([RW] : List SearchResult) ≠ [])
  ∧ appearInOrder ((enumFrom 1 [RW]).map (fun p => (resultBlock p.1 p.2).data))
      (answerSearchPrompt ("q7") (formatResults [RW])).data :=
  ⟨by simp, C7_prompt_lists_results_in_order ("q7") [RW] (by simp)⟩

lemma fields_title (it : Scraper.OrganicItem) :
    dictGet it.fields ("title") (Json.str ("")) = Json.str (it.title.getD ("")) := by
  rcases it with ⟨t, l, u, dd, sn⟩
  cases t <;> cases l <;> cases u <;> cases dd <;> cases sn <;> rfl

lemma fields_url_val (it : Scraper.OrganicItem) :
    (if (dictGet it.fields ("link") Json.null).truthy then dictGet it.fields ("link") Json.null
     else dictGet it.fields ("url") (Json.str ("")))
    = Json.str (if it.link.getD ("") != "" then it.link.getD ("") else it.url.getD ("")) := by
  rcases it with ⟨t, l, u, dd, sn⟩
  cases t <;> cases l <;> cases u <;> cases dd <;> cases sn <;>
    simp [Scraper.OrganicItem.fields, dictGet, List.lookup, Json.truthy] <;>
    split_ifs <;> simp_all

lemma fields_descr_val (it : Scraper.OrganicItem) :
    (if (dictGet it.fields ("description") Json.null).truthy
     then dictGet it.fields ("description") Json.null
     else dictGet it.fields ("snippet") (Json.str ("")))
    = Json.str (if it.description.getD ("") != "" then it.description.getD ("")
                else it.snippet.getD ("")) := by
  rcases it with ⟨t, l, u, dd, sn⟩
  cases t <;> cases l <;> cases u <;> cases dd <;> cases sn <;>
    simp [Scraper.OrganicItem.fields, dictGet, List.lookup, Json.truthy] <;>
    split_ifs <;> simp_all

lemma itemsLoop_toJson_cons (it : Scraper.OrganicItem) (rest : List Json) :
    Scraper.itemsLoop (it.toJson :: rest)
      = match Scraper.itemsLoop rest with
        | .ok tail => .ok ((it.extract).toList ++ tail)
        | .error e => .error e := by
  rcases hrest : Scraper.itemsLoop rest with e | tail
  · simp only [Scraper.OrganicItem.toJson, Scraper.itemsLoop, hrest]
  · simp only [Scraper.OrganicItem.toJson, Scraper.itemsLoop, hrest]
    rw [fields_title it, fields_url_val it, fields_descr_val it]
    simp [Scraper.OrganicItem.extract, Json.truthy] <;> split_ifs <;> simp_all

lemma itemsLoop_map_toJson (items : List Scraper.OrganicItem) :
    Scraper.itemsLoop (items.map Scraper.OrganicItem.toJson)
      = Except.ok (items.filterMap Scraper.OrganicItem.extract) := by
  induction items with
  | nil => rfl
  | cons it items ih =>
    rw [List.map_cons, itemsLoop_toJson_cons, ih]
    rcases hext : it.extract with _ | r <;> simp [List.filterMap_cons, hext]

/-- C6: the search-result parser keeps, in input order, exactly the organic
records whose title and whose URL (the `link` field, falling back to the
`url` field) are non-empty, silently dropping the rest; on the claim's
concrete payload `[{"title":"","link":"http://x"},
{"title":"A","link":"http://y","snippet":"d"}]` it yields exactly the one
record `{"title":"A","url":"http://y","description":"d"}`. -/
theorem C6_parser_keeps_titled_url_records :
    (∀ (items : List Scraper.OrganicItem) (jl : String → Option Json),
      Scraper.parseSearchResults jl
          (Json.obj [(("organic" : String), Json.arr (items.map Scraper.OrganicItem.toJson))])
        = Except.ok (items.filterMap Scraper.OrganicItem.extract))
  ∧ Scraper.parseSearchResults (fun _ => none)
      (Json.obj [(("organic" : String), Json.arr
        [ Json.obj [(("title" : String), Json.str ("")), (("link" : String), Json.str ("http://x"))]
        , Json.obj [(("title" : String), Json.str ("A")), (("link" : String), Json.str ("http://y")),
                    (("snippet" : String), Json.str ("d"))]])])
      = Except.ok [{ title := Json.str ("A"), url := Json.str ("http://y"),
                     description := Json.str ("d") }] := by
  constructor
  · intro items jl
    cases items with
    | nil => rfl
    | cons it its =>
      have hl := itemsLoop_map_toJson (it :: its)
      rw [List.map_cons] at hl
      simp [Scraper.parseSearchResults, Scraper.parseBody, dictGet, List.lookup,
            Json.truthy, hl]
  · rfl
